import Mathlib

/-!
Verification development for the `chatguru` crate: a shallow embedding of
the webhook payload resolver (`src/types/webhook.rs`, `src/types/payload.rs`)
and the outbound HTTP notifier (`src/client.rs`), together with theorems
settling the specification claims about them.
-/

/-- Structured JSON values, the raw input of the webhook resolver.
Numbers are modelled as integers: no claim inspects a numeric value, only
whether a number can fill a numeric field. -/
inductive Json where
  | null
  | bool (b : Bool)
  | num (n : Int)
  | str (s : String)
  | arr (xs : List Json)
  | obj (kvs : List (String × Json))

/-- Look up the first entry of a JSON object whose key is one of the given
names (a serde field name together with its aliases). -/
def lookupJ (o : List (String × Json)) (keys : List String) : Option Json :=
  match o with
  | [] => none
  | (k, v) :: rest => if keys.contains k then some v else lookupJ rest keys

/-- Deserialize a required `String` field value (serde: only a JSON string). -/
def asString : Json → Option String
  | Json.str s => some s
  | _ => none

/-- Deserialize an `Option<String>` field value (serde: `null` gives `None`,
a string gives `Some`). -/
def asOptString : Json → Option (Option String)
  | Json.null => some none
  | Json.str s => some (some s)
  | _ => none

/-- Deserialize an `Option<bool>` field value. -/
def asOptBool : Json → Option (Option Bool)
  | Json.null => some none
  | Json.bool b => some (some b)
  | _ => none

/-- Deserialize an `Option<f64>` field value (any JSON number is accepted). -/
def asOptNum : Json → Option (Option Int)
  | Json.null => some none
  | Json.num n => some (some n)
  | _ => none

/-- Deserialize a list of strings, failing on any non-string element. -/
def allStrings : List Json → Option (List String)
  | [] => some []
  | Json.str s :: rest => (allStrings rest).map (fun l => s :: l)
  | _ => none

/-- Deserialize a `Vec<String>` field value (serde: a JSON array of strings). -/
def asStringList : Json → Option (List String)
  | Json.arr xs => allStrings xs
  | _ => none

/-- Deserialize a `HashMap<String, Value>` field value (serde: any JSON
object; the map is kept as an association list). -/
def asObjJ : Json → Option (List (String × Json))
  | Json.obj m => some m
  | _ => none

/-- Bot context of the current-format payload (`BotContext` in
`src/types/payload.rs`): one optional boolean under the wire key
`ChatGuru` (serde rename). -/
structure BotContext where
  chat_guru : Option Bool

/-- No two entries of the object feed the same logical field (serde derive
rejects a duplicate field, also when the duplicate arrives via an alias). -/
def slotsNodup (slot : String → Option Nat) : List (String × Json) → Bool
  | [] => true
  | (k, _) :: rest =>
      (match slot k with
       | none => true
       | some i => rest.all fun kv => slot kv.1 != some i) && slotsNodup slot rest

/-- Logical field slot fed by a given key of a `BotContext` object: only
the wire key `ChatGuru`. -/
def bcSlot : String → Option Nat
  | "ChatGuru" => some 0
  | _ => none

/-- Deserialize an `Option<BotContext>` field value: `null` gives `None`;
an object gives a `BotContext` whose `ChatGuru` key, when present, must be
a boolean or `null` and must not occur twice (serde derive raises a
duplicate-field error); unknown keys are ignored; any other JSON value
fails. -/
def asOptBotContext : Json → Option (Option BotContext)
  | Json.null => some none
  | Json.obj m =>
      if (m.all fun kv => kv.1 != "ChatGuru" || (asOptBool kv.2).isSome) &&
         slotsNodup bcSlot m then
        some (some { chat_guru :=
          match lookupJ m ["ChatGuru"] with
          | some (Json.bool b) => some b
          | _ => none })
      else none
  | _ => none

/-- Current-format ChatGuru webhook payload (`ChatGuruPayload` in
`src/types/payload.rs`). Every field carries `#[serde(default)]` in the
source; `campos_personalizados` (a `HashMap<String, Value>`) is kept as an
association list. -/
structure ChatGuruPayload where
  campanha_id : String
  campanha_nome : String
  origem : String
  email : String
  nome : String
  tags : List String
  texto_mensagem : String
  media_url : Option String
  media_type : Option String
  tipo_mensagem : Option String
  url_arquivo : Option String
  campos_personalizados : List (String × Json)
  bot_context : Option BotContext
  responsavel_nome : Option String
  responsavel_email : Option String
  link_chat : String
  celular : String
  phone_id : Option String
  chat_id : Option String
  chat_created : Option String

/-- The all-defaults `ChatGuruPayload`: what serde produces from an object
carrying none of the recognized fields (every field has `#[serde(default)]`). -/
def cgDefault : ChatGuruPayload :=
  { campanha_id := "", campanha_nome := "", origem := "", email := "", nome := ""
    tags := [], texto_mensagem := "", media_url := none, media_type := none
    tipo_mensagem := none, url_arquivo := none, campos_personalizados := []
    bot_context := none, responsavel_nome := none, responsavel_email := none
    link_chat := "", celular := "", phone_id := none, chat_id := none
    chat_created := none }

/-- Logical field slot fed by a given key of a `ChatGuruPayload` object
(aliases `mensagem`/`message`/`text` feed `texto_mensagem`; `url_midia`
feeds `url_arquivo`); `none` for unknown keys, which serde ignores. -/
def cgSlot : String → Option Nat
  | "campanha_id" => some 0
  | "campanha_nome" => some 1
  | "origem" => some 2
  | "email" => some 3
  | "nome" => some 4
  | "tags" => some 5
  | "texto_mensagem" => some 6
  | "mensagem" => some 6
  | "message" => some 6
  | "text" => some 6
  | "media_url" => some 7
  | "media_type" => some 8
  | "tipo_mensagem" => some 9
  | "url_arquivo" => some 10
  | "url_midia" => some 10
  | "campos_personalizados" => some 11
  | "bot_context" => some 12
  | "responsavel_nome" => some 13
  | "responsavel_email" => some 14
  | "link_chat" => some 15
  | "celular" => some 16
  | "phone_id" => some 17
  | "chat_id" => some 18
  | "chat_created" => some 19
  | _ => none

/-- Type-check one object entry against the field of `ChatGuruPayload` it
feeds; entries with unknown keys type-check vacuously (serde ignores them). -/
def cgFieldCheck (k : String) (v : Json) : Bool :=
  match k with
  | "campanha_id" | "campanha_nome" | "origem" | "email" | "nome"
  | "texto_mensagem" | "mensagem" | "message" | "text"
  | "link_chat" | "celular" => (asString v).isSome
  | "tags" => (asStringList v).isSome
  | "media_url" | "media_type" | "tipo_mensagem" | "url_arquivo" | "url_midia"
  | "responsavel_nome" | "responsavel_email" | "phone_id" | "chat_id"
  | "chat_created" => (asOptString v).isSome
  | "campos_personalizados" => (asObjJ v).isSome
  | "bot_context" => (asOptBotContext v).isSome
  | _ => true

/-- Extract a defaulted `String` field (first key among the aliases wins;
missing gives the serde default `""`). -/
def getStr (o : List (String × Json)) (keys : List String) : String :=
  match lookupJ o keys with
  | some (Json.str s) => s
  | _ => ""

/-- Extract an `Option<String>` field (missing or `null` gives `none`). -/
def getOptStr (o : List (String × Json)) (keys : List String) : Option String :=
  match lookupJ o keys with
  | some (Json.str s) => some s
  | _ => none

/-- Extract an `Option<f64>` field (missing or `null` gives `none`). -/
def getOptNum (o : List (String × Json)) (keys : List String) : Option Int :=
  match lookupJ o keys with
  | some (Json.num n) => some n
  | _ => none

/-- Extract the defaulted `tags` field. -/
def getTags (o : List (String × Json)) : List String :=
  match lookupJ o ["tags"] with
  | some j => (asStringList j).getD []
  | none => []

/-- Extract a defaulted `HashMap<String, Value>` field. -/
def getObjD (o : List (String × Json)) (keys : List String) : List (String × Json) :=
  match lookupJ o keys with
  | some (Json.obj m) => m
  | _ => []

/-- Extract the `bot_context` field. -/
def getOptBot (o : List (String × Json)) : Option BotContext :=
  match lookupJ o ["bot_context"] with
  | some j => (asOptBotContext j).getD none
  | none => none

/-- Serde deserialization of `ChatGuruPayload` from a JSON object: it fails
exactly when some recognized field is present with an ill-typed value or
twice (directly or through an alias); since every field has
`#[serde(default)]`, every absent field falls back to its default. -/
def cgFromObj (o : List (String × Json)) : Option ChatGuruPayload :=
  if (o.all fun kv => cgFieldCheck kv.1 kv.2) && slotsNodup cgSlot o then
    some {
      campanha_id := getStr o ["campanha_id"]
      campanha_nome := getStr o ["campanha_nome"]
      origem := getStr o ["origem"]
      email := getStr o ["email"]
      nome := getStr o ["nome"]
      tags := getTags o
      texto_mensagem := getStr o ["texto_mensagem", "mensagem", "message", "text"]
      media_url := getOptStr o ["media_url"]
      media_type := getOptStr o ["media_type"]
      tipo_mensagem := getOptStr o ["tipo_mensagem"]
      url_arquivo := getOptStr o ["url_arquivo", "url_midia"]
      campos_personalizados := getObjD o ["campos_personalizados"]
      bot_context := getOptBot o
      responsavel_nome := getOptStr o ["responsavel_nome"]
      responsavel_email := getOptStr o ["responsavel_email"]
      link_chat := getStr o ["link_chat"]
      celular := getStr o ["celular"]
      phone_id := getOptStr o ["phone_id"]
      chat_id := getOptStr o ["chat_id"]
      chat_created := getOptStr o ["chat_created"] }
  else none

/-- Deserialization of `ChatGuruPayload` from a JSON value (objects only;
non-object input is rejected). -/
def ChatGuruPayload.fromJson : Json → Option ChatGuruPayload
  | Json.obj o => cgFromObj o
  | _ => none

/-- Event data of the legacy-format payload (`EventData` in
`src/types/payload.rs`). The source field `annotation` is called
`annotation'` here; `extra` is the `#[serde(flatten)]` map capturing every
unrecognized field verbatim. -/
structure EventData where
  lead_name : Option String
  phone : Option String
  email : Option String
  project_name : Option String
  task_title : Option String
  annotation' : Option String
  amount : Option Int
  status : Option String
  custom_data : List (String × Json)
  extra : List (String × Json)

/-- Logical field slot fed by a given key of an `EventData` object; `none`
for keys captured by the flattened `extra` map. -/
def edSlot : String → Option Nat
  | "lead_name" => some 0
  | "phone" => some 1
  | "email" => some 2
  | "project_name" => some 3
  | "task_title" => some 4
  | "annotation" => some 5
  | "amount" => some 6
  | "status" => some 7
  | "custom_data" => some 8
  | _ => none

/-- Type-check one object entry against the `EventData` field it feeds;
unrecognized keys go to the flattened map with any value. -/
def edFieldCheck (k : String) (v : Json) : Bool :=
  match k with
  | "lead_name" | "phone" | "email" | "project_name" | "task_title"
  | "annotation" | "status" => (asOptString v).isSome
  | "amount" => (asOptNum v).isSome
  | "custom_data" => (asObjJ v).isSome
  | _ => true

/-- Serde deserialization of `EventData` from a JSON value: only objects are
accepted (the struct has a `#[serde(flatten)]` field); recognized fields
must type-check, everything else lands in `extra`. -/
def parseEventData : Json → Option EventData
  | Json.obj m =>
      if (m.all fun kv => edFieldCheck kv.1 kv.2) && slotsNodup edSlot m then
        some {
          lead_name := getOptStr m ["lead_name"]
          phone := getOptStr m ["phone"]
          email := getOptStr m ["email"]
          project_name := getOptStr m ["project_name"]
          task_title := getOptStr m ["task_title"]
          annotation' := getOptStr m ["annotation"]
          amount := getOptNum m ["amount"]
          status := getOptStr m ["status"]
          custom_data := getObjD m ["custom_data"]
          extra := m.filter fun kv => (edSlot kv.1).isNone }
      else none
  | _ => none

/-- Legacy-format webhook payload (`EventTypePayload` in
`src/types/payload.rs`): all four fields are required (no serde default). -/
structure EventTypePayload where
  id : String
  event_type : String
  timestamp : String
  data : EventData

/-- Type-check one top-level entry of an `EventTypePayload` object. -/
def etFieldCheck (k : String) (v : Json) : Bool :=
  match k with
  | "id" | "event_type" | "timestamp" => (asString v).isSome
  | "data" => (parseEventData v).isSome
  | _ => true

/-- Logical field slot fed by a given key of an `EventTypePayload` object. -/
def etSlot : String → Option Nat
  | "id" => some 0
  | "event_type" => some 1
  | "timestamp" => some 2
  | "data" => some 3
  | _ => none

/-- Serde deserialization of `EventTypePayload` from a JSON value: all four
fields must be present and well-typed; unknown fields are ignored. -/
def EventTypePayload.fromJson : Json → Option EventTypePayload
  | Json.obj m =>
      if (m.all fun kv => etFieldCheck kv.1 kv.2) && slotsNodup etSlot m then
        match lookupJ m ["id"], lookupJ m ["event_type"],
              lookupJ m ["timestamp"], lookupJ m ["data"] with
        | some (Json.str i), some (Json.str e), some (Json.str t), some d =>
            (parseEventData d).map fun ed =>
              { id := i, event_type := e, timestamp := t, data := ed }
        | _, _, _, _ => none
      else none
  | _ => none

/-- Generic fallback payload (`GenericPayload` in `src/types/payload.rs`):
four optional fields plus a `#[serde(flatten)]` map of everything else. -/
structure GenericPayload where
  nome : Option String
  celular : Option String
  email : Option String
  mensagem : Option String
  extra : List (String × Json)

/-- Logical field slot fed by a given key of a `GenericPayload` object. -/
def genSlot : String → Option Nat
  | "nome" => some 0
  | "celular" => some 1
  | "email" => some 2
  | "mensagem" => some 3
  | _ => none

/-- Type-check one entry of a `GenericPayload` object. -/
def genFieldCheck (k : String) (v : Json) : Bool :=
  match k with
  | "nome" | "celular" | "email" | "mensagem" => (asOptString v).isSome
  | _ => true

/-- Serde deserialization of `GenericPayload` from a JSON value: only
objects are accepted (flattened field); the four recognized fields must be
strings or `null` when present. -/
def GenericPayload.fromJson : Json → Option GenericPayload
  | Json.obj m =>
      if (m.all fun kv => genFieldCheck kv.1 kv.2) && slotsNodup genSlot m then
        some {
          nome := getOptStr m ["nome"]
          celular := getOptStr m ["celular"]
          email := getOptStr m ["email"]
          mensagem := getOptStr m ["mensagem"]
          extra := m.filter fun kv => (genSlot kv.1).isNone }
      else none
  | _ => none

/-- The untagged webhook union (`WebhookPayload` in `src/types/webhook.rs`). -/
inductive WebhookPayload where
  | ChatGuru (p : ChatGuruPayload)
  | EventType (p : EventTypePayload)
  | Generic (p : GenericPayload)

/-- Serde deserialization of the `#[serde(untagged)]` enum: each variant is
attempted in declaration order — `ChatGuru`, then `EventType`, then
`Generic` — committing to the first that deserializes without error. -/
def WebhookPayload.fromJson (j : Json) : Option WebhookPayload :=
  match ChatGuruPayload.fromJson j with
  | some p => some (WebhookPayload.ChatGuru p)
  | none =>
    match EventTypePayload.fromJson j with
    | some p => some (WebhookPayload.EventType p)
    | none =>
      match GenericPayload.fromJson j with
      | some p => some (WebhookPayload.Generic p)
      | none => none

/-- Method `normalize_media_fields` of `ChatGuruPayload`
(`src/types/payload.rs`); the Rust method mutates `self`, modelled here as
a function returning the updated payload. Rule order follows the source:
early return when both canonical fields are set; copy `url_arquivo` into an
unset `media_url`; derive an unset `media_type` from `tipo_mensagem`. -/
def ChatGuruPayload.normalize_media_fields (p : ChatGuruPayload) : ChatGuruPayload :=
  if p.media_url.isSome && p.media_type.isSome then p
  else
    let p1 : ChatGuruPayload :=
      if p.url_arquivo.isSome && p.media_url.isNone then
        { p with media_url := p.url_arquivo }
      else p
    match p1.tipo_mensagem with
    | some tipo =>
        if p1.media_type.isNone then
          { p1 with media_type := some (match tipo with
              | "image" => "image/jpeg"
              | "ptt" => "audio/ogg"
              | "audio" => "audio/ogg"
              | "video" => "video/mp4"
              | "document" => "application/pdf"
              | other => "application/" ++ other) }
        else p1
    | none => p1

/-- Accessor `get_contact_name` (`src/types/webhook.rs`): the contact name,
with `"Contato"` as the fallback for a missing legacy/generic name. -/
def WebhookPayload.get_contact_name : WebhookPayload → String
  | WebhookPayload.ChatGuru p => p.nome
  | WebhookPayload.EventType p => p.data.lead_name.getD "Contato"
  | WebhookPayload.Generic p => p.nome.getD "Contato"

/-- Accessor `get_phone_number` (`src/types/webhook.rs`): the source tests
`!p.celular.is_empty()` on the current format. -/
def WebhookPayload.get_phone_number : WebhookPayload → Option String
  | WebhookPayload.ChatGuru p => if p.celular = "" then none else some p.celular
  | WebhookPayload.EventType p => p.data.phone
  | WebhookPayload.Generic p => p.celular

/-- Accessor `get_message_text` (`src/types/webhook.rs`): the source tests
`!p.texto_mensagem.is_empty()` on the current format; the legacy format
reports the event annotation. -/
def WebhookPayload.get_message_text : WebhookPayload → Option String
  | WebhookPayload.ChatGuru p =>
      if p.texto_mensagem = "" then none else some p.texto_mensagem
  | WebhookPayload.EventType p => p.data.annotation'
  | WebhookPayload.Generic p => p.mensagem

/-- Accessor `get_chat_id` (`src/types/webhook.rs`). -/
def WebhookPayload.get_chat_id : WebhookPayload → Option String
  | WebhookPayload.ChatGuru p => p.chat_id
  | WebhookPayload.EventType p => some p.id
  | WebhookPayload.Generic _ => none

/-- Accessor `has_media` (`src/types/webhook.rs`): true only on the current
format, when either media URL field is set. -/
def WebhookPayload.has_media : WebhookPayload → Bool
  | WebhookPayload.ChatGuru p => p.media_url.isSome || p.url_arquivo.isSome
  | _ => false

/-- Accessor `get_media_url` (`src/types/webhook.rs`):
`media_url` or else `url_arquivo`, on the current format only. -/
def WebhookPayload.get_media_url : WebhookPayload → Option String
  | WebhookPayload.ChatGuru p => p.media_url.or p.url_arquivo
  | _ => none

/-- Accessor `get_media_type` (`src/types/webhook.rs`): `media_type` or else
a MIME string derived from `tipo_mensagem` (the source inlines the same
kind-to-MIME table a second time here). -/
def WebhookPayload.get_media_type : WebhookPayload → Option String
  | WebhookPayload.ChatGuru p =>
      p.media_type.or (p.tipo_mensagem.map fun t =>
        match t with
        | "image" => "image/jpeg"
        | "ptt" => "audio/ogg"
        | "audio" => "audio/ogg"
        | "video" => "video/mp4"
        | "document" => "application/pdf"
        | other => "application/" ++ other)
  | _ => none

/-- Configuration of `ChatGuruClient` (`src/client.rs`): token, base
endpoint and account id (the HTTP client object and the never-populated
message-state map are omitted). -/
structure ClientConfig where
  api_token : String
  api_endpoint : String
  account_id : String

/-- Outcome of the transport-level send of one HTTP request: either the
send itself failed, or a response with some status and body text arrived
(`response.text()` failures collapse to an empty body in the source). -/
inductive HttpOutcome where
  | failure (msg : String)
  | response (status : Nat) (body : String)

/-- One tracing event with its severity and message. -/
inductive LogEvent where
  | info (msg : String)
  | warn (msg : String)
  | error (msg : String)

/-- Error type of the crate (`ChatGuruError` in `src/error.rs`). -/
inductive ChatGuruError where
  | NetworkError (msg : String)
  | ApiError (msg : String)
  | SerializationError (msg : String)
  | ValidationError (msg : String)
  | InternalError (msg : String)

/-- Everything observable about one outbound call: the request URL it
builds, the log events it emits, and the value it returns. -/
structure CallOutput where
  url : String
  logs : List LogEvent
  result : Except ChatGuruError Unit

/-- Unicode code-point ranges above ASCII whose general category is a
number category (Nd, Nl or No), generated from the Unicode 14.0 character
database and extended with the two Unicode 15.0 decimal-digit additions
(Kawi U+11F50-11F59 and Nag Mundari U+1E4F0-1E4F9), matching the Unicode
data shipped by Rust toolchains contemporary with this crate. -/
def nonAsciiNumericRanges : List (Nat × Nat) :=
  [
   (0xB2, 0xB3), (0xB9, 0xB9), (0xBC, 0xBE), (0x660, 0x669), (0x6F0, 0x6F9),
   (0x7C0, 0x7C9), (0x966, 0x96F), (0x9E6, 0x9EF), (0x9F4, 0x9F9), (0xA66, 0xA6F),
   (0xAE6, 0xAEF), (0xB66, 0xB6F), (0xB72, 0xB77), (0xBE6, 0xBF2), (0xC66, 0xC6F),
   (0xC78, 0xC7E), (0xCE6, 0xCEF), (0xD58, 0xD5E), (0xD66, 0xD78), (0xDE6, 0xDEF),
   (0xE50, 0xE59), (0xED0, 0xED9), (0xF20, 0xF33), (0x1040, 0x1049),
   (0x1090, 0x1099), (0x1369, 0x137C), (0x16EE, 0x16F0), (0x17E0, 0x17E9),
   (0x17F0, 0x17F9), (0x1810, 0x1819), (0x1946, 0x194F), (0x19D0, 0x19DA),
   (0x1A80, 0x1A89), (0x1A90, 0x1A99), (0x1B50, 0x1B59), (0x1BB0, 0x1BB9),
   (0x1C40, 0x1C49), (0x1C50, 0x1C59), (0x2070, 0x2070), (0x2074, 0x2079),
   (0x2080, 0x2089), (0x2150, 0x2182), (0x2185, 0x2189), (0x2460, 0x249B),
   (0x24EA, 0x24FF), (0x2776, 0x2793), (0x2CFD, 0x2CFD), (0x3007, 0x3007),
   (0x3021, 0x3029), (0x3038, 0x303A), (0x3192, 0x3195), (0x3220, 0x3229),
   (0x3248, 0x324F), (0x3251, 0x325F), (0x3280, 0x3289), (0x32B1, 0x32BF),
   (0xA620, 0xA629), (0xA6E6, 0xA6EF), (0xA830, 0xA835), (0xA8D0, 0xA8D9),
   (0xA900, 0xA909), (0xA9D0, 0xA9D9), (0xA9F0, 0xA9F9), (0xAA50, 0xAA59),
   (0xABF0, 0xABF9), (0xFF10, 0xFF19), (0x10107, 0x10133), (0x10140, 0x10178),
   (0x1018A, 0x1018B), (0x102E1, 0x102FB), (0x10320, 0x10323), (0x10341, 0x10341),
   (0x1034A, 0x1034A), (0x103D1, 0x103D5), (0x104A0, 0x104A9), (0x10858, 0x1085F),
   (0x10879, 0x1087F), (0x108A7, 0x108AF), (0x108FB, 0x108FF), (0x10916, 0x1091B),
   (0x109BC, 0x109BD), (0x109C0, 0x109CF), (0x109D2, 0x109FF), (0x10A40, 0x10A48),
   (0x10A7D, 0x10A7E), (0x10A9D, 0x10A9F), (0x10AEB, 0x10AEF), (0x10B58, 0x10B5F),
   (0x10B78, 0x10B7F), (0x10BA9, 0x10BAF), (0x10CFA, 0x10CFF), (0x10D30, 0x10D39),
   (0x10E60, 0x10E7E), (0x10F1D, 0x10F26), (0x10F51, 0x10F54), (0x10FC5, 0x10FCB),
   (0x11052, 0x1106F), (0x110F0, 0x110F9), (0x11136, 0x1113F), (0x111D0, 0x111D9),
   (0x111E1, 0x111F4), (0x112F0, 0x112F9), (0x11450, 0x11459), (0x114D0, 0x114D9),
   (0x11650, 0x11659), (0x116C0, 0x116C9), (0x11730, 0x1173B), (0x118E0, 0x118F2),
   (0x11950, 0x11959), (0x11C50, 0x11C6C), (0x11D50, 0x11D59), (0x11DA0, 0x11DA9),
   (0x11F50, 0x11F59), (0x11FC0, 0x11FD4), (0x12400, 0x1246E), (0x16A60, 0x16A69),
   (0x16AC0, 0x16AC9), (0x16B50, 0x16B59), (0x16B5B, 0x16B61), (0x16E80, 0x16E96),
   (0x1D2E0, 0x1D2F3), (0x1D360, 0x1D378), (0x1D7CE, 0x1D7FF), (0x1E140, 0x1E149),
   (0x1E2F0, 0x1E2F9), (0x1E4F0, 0x1E4F9), (0x1E8C7, 0x1E8CF), (0x1E950, 0x1E959),
   (0x1EC71, 0x1ECAB), (0x1ECAD, 0x1ECAF), (0x1ECB1, 0x1ECB4), (0x1ED01, 0x1ED2D),
   (0x1ED2F, 0x1ED3D), (0x1F100, 0x1F10C), (0x1FBF0, 0x1FBF9)]

/-- Model of Rust `char::is_numeric`, which holds exactly for the Unicode
number general categories Nd, Nl and No (per the std documentation): on
the ASCII range these are the digits 0-9; above ASCII they are the
tabulated code-point ranges. -/
def rustCharIsNumeric (c : Char) : Bool :=
  if c.toNat < 128 then c.isDigit
  else nonAsciiNumericRanges.any fun r => r.1 ≤ c.toNat && c.toNat ≤ r.2

/-- Phone-number cleanup of both outbound calls (`src/client.rs`):
`phone_number.chars().filter(|c| c.is_numeric()).collect()`. -/
def clean_phone (s : String) : String :=
  String.mk (s.data.filter rustCharIsNumeric)

/-- Rust `str::ends_with`, as a suffix test on the character list. -/
def endsWithStr (s pat : String) : Bool :=
  pat.data.isSuffixOf s.data

/-- Contiguous-substring test on character lists. -/
def isInfixChars (pat : List Char) : List Char → Bool
  | [] => pat.isEmpty
  | c :: rest => pat.isPrefixOf (c :: rest) || isInfixChars pat rest

/-- Rust `str::contains`, as an infix test on the character list. -/
def containsStr (s pat : String) : Bool :=
  isInfixChars pat.data s.data

/-- Base-URL construction duplicated in `add_annotation` and
`send_confirmation_message` (`src/client.rs`): keep the endpoint if it
already ends in `/api/v1`, otherwise append `api/v1`, inserting `/` unless
the endpoint ends with one. -/
def normalize_base_url (endpoint : String) : String :=
  if endsWithStr endpoint "/api/v1" then endpoint
  else if endsWithStr endpoint "/" then endpoint ++ "api/v1"
  else endpoint ++ "/api/v1"

/-- Default phone id hardcoded in `src/client.rs`. -/
def default_phone_id : String := "62558780e2923cc4705beee1"

/-- reqwest `StatusCode::is_success`: the 2xx range. -/
def isSuccessStatus (s : Nat) : Bool := 200 ≤ s && s < 300

/-- UTF-8 encoding of one character, as its list of bytes. -/
def utf8Bytes (c : Char) : List Nat :=
  let n := c.toNat
  if n < 0x80 then [n]
  else if n < 0x800 then [0xC0 + n / 64, 0x80 + n % 64]
  else if n < 0x10000 then
    [0xE0 + n / 4096, 0x80 + (n / 64) % 64, 0x80 + n % 64]
  else
    [0xF0 + n / 262144, 0x80 + (n / 4096) % 64, 0x80 + (n / 64) % 64, 0x80 + n % 64]

/-- Bytes the `urlencoding` crate leaves untouched: ASCII alphanumerics and
`-`, `_`, `.`, `~`. -/
def isUrlSafeByte (b : Nat) : Bool :=
  (0x41 ≤ b && b ≤ 0x5A) || (0x61 ≤ b && b ≤ 0x7A) ||
  (0x30 ≤ b && b ≤ 0x39) || b == 0x2D || b == 0x5F || b == 0x2E || b == 0x7E

/-- Upper-case hexadecimal digit for a value below 16. -/
def hexChar (n : Nat) : Char :=
  if n < 10 then Char.ofNat (0x30 + n) else Char.ofNat (0x41 + n - 10)

/-- Percent-encoding of one byte: kept verbatim when URL-safe, otherwise
`%` followed by two upper-case hex digits. -/
def encodeByte (b : Nat) : List Char :=
  if isUrlSafeByte b then [Char.ofNat b] else ['%', hexChar (b / 16), hexChar (b % 16)]

/-- Model of `urlencoding::encode`: percent-encode the UTF-8 bytes. -/
def urlencode (s : String) : String :=
  String.mk ((s.data.flatMap utf8Bytes).flatMap encodeByte)

/-- Method `add_annotation` of `ChatGuruClient` (`src/client.rs`). The
request URL is built before the send, from the normalized base endpoint and
the query parameters of the source's `format!` call; `chat_id` is used only
in log messages. Transport failure maps to `NetworkError`; every received
response — success or not — yields `Ok(())`, with the non-success branch
only choosing between a warning (body reports a missing chat) and an error
log. Log messages render the numeric status code. -/
def add_annotation' (cfg : ClientConfig) (chat_id phone_number annotation_text : String)
    (outcome : HttpOutcome) : CallOutput :=
  let cleanPh := clean_phone phone_number
  let base_url := normalize_base_url cfg.api_endpoint
  let url := base_url ++ "?key=" ++ cfg.api_token ++ "&account_id=" ++ cfg.account_id ++
    "&phone_id=" ++ default_phone_id ++ "&action=note_add&note_text=" ++
    urlencode annotation_text ++ "&chat_number=" ++ cleanPh
  let firstLog := LogEvent.info ("Adding annotation to chat " ++ chat_id ++ ": " ++
    annotation_text)
  let handled : List LogEvent × Except ChatGuruError Unit :=
    match outcome with
    | HttpOutcome.failure e =>
        ([], Except.error (ChatGuruError.NetworkError ("Failed to add annotation: " ++ e)))
    | HttpOutcome.response status body =>
        if isSuccessStatus status || status == 201 then
          ([LogEvent.info ("Annotation added successfully to chat " ++ chat_id ++ ": " ++
              body),
            LogEvent.info ("Mensagem enviada com sucesso: " ++ annotation_text)],
           Except.ok ())
        else if containsStr body "Chat não encontrado" || containsStr body "Chat n" then
          ([LogEvent.warn ("Chat not found for annotation (phone: " ++ phone_number ++
              "). This is normal for inactive chats.")],
           Except.ok ())
        else
          ([LogEvent.error ("Failed to add annotation. Status: " ++ Nat.repr status ++
              ", Response: " ++ body)],
           Except.ok ())
  { url := url, logs := firstLog :: handled.1, result := handled.2 }

/-- Method `send_confirmation_message` of `ChatGuruClient`
(`src/client.rs`): same shape as `add_annotation`, with action code
`message_send`, text parameter `text`, an optional caller-supplied phone id
falling back to the system default, and the body probe `Chat não existe`. -/
def send_confirmation_message (cfg : ClientConfig) (phone_number : String)
    (phone_id : Option String) (message : String) (outcome : HttpOutcome) : CallOutput :=
  let phone_id_value := phone_id.getD default_phone_id
  let cleanPh := clean_phone phone_number
  let base_url := normalize_base_url cfg.api_endpoint
  let url := base_url ++ "?key=" ++ cfg.api_token ++ "&account_id=" ++ cfg.account_id ++
    "&phone_id=" ++ phone_id_value ++ "&action=message_send&text=" ++
    urlencode message ++ "&chat_number=" ++ cleanPh
  let firstLog := LogEvent.info ("Sending confirmation message to " ++ phone_number ++
    ": " ++ message)
  let handled : List LogEvent × Except ChatGuruError Unit :=
    match outcome with
    | HttpOutcome.failure e =>
        ([], Except.error (ChatGuruError.NetworkError ("Failed to send message: " ++ e)))
    | HttpOutcome.response status body =>
        if isSuccessStatus status || status == 201 then
          ([LogEvent.info ("Confirmation message sent successfully to " ++ phone_number ++
              ": " ++ body),
            LogEvent.info ("Mensagem enviada com sucesso: " ++ message)],
           Except.ok ())
        else if containsStr body "Chat não existe" || containsStr body "Chat n" then
          ([LogEvent.warn ("Chat not found for message (phone: " ++ phone_number ++
              "). This is normal - user may not have active chat.")],
           Except.ok ())
        else
          ([LogEvent.error ("Failed to send confirmation message. Status: " ++
              Nat.repr status ++ ", Response: " ++ body)],
           Except.ok ())
  { url := url, logs := firstLog :: handled.1, result := handled.2 }

/-- Number of occurrences of a pattern as a contiguous character run. -/
def countOccs (pat : List Char) : List Char → Nat
  | [] => 0
  | c :: rest => (if pat.isPrefixOf (c :: rest) then 1 else 0) + countOccs pat rest

/-- Concrete legacy-shaped input of the C1 test property: an object with
exactly the keys `id`, `event_type`, `timestamp` and `data` (the latter
holding `lead_name` and `phone`). -/
def legacyJson1 : Json :=
  Json.obj [("id", Json.str "ev_1"), ("event_type", Json.str "new_lead"),
    ("timestamp", Json.str "2024-01-01T00:00:00Z"),
    ("data", Json.obj [("lead_name", Json.str "Maria"),
      ("phone", Json.str "5511999999999")])]

/-- C1 counterexample: the documented legacy-shaped input does not resolve
to the `EventType` variant — the untagged resolver commits to the
`ChatGuru` variant (whose fields all default), so the accessors report the
empty contact name instead of the given `lead_name`, no phone number, and
no chat id equal to the event `id`. -/
theorem c1_counterexample :
    WebhookPayload.fromJson legacyJson1 = some (WebhookPayload.ChatGuru cgDefault) ∧
    (WebhookPayload.fromJson legacyJson1).map WebhookPayload.get_contact_name ≠
      some "Maria" ∧
    (WebhookPayload.fromJson legacyJson1).map WebhookPayload.get_phone_number ≠
      some (some "5511999999999") ∧
    (WebhookPayload.fromJson legacyJson1).map WebhookPayload.get_chat_id ≠
      some (some "ev_1") := by
  refine ⟨rfl, by decide, by decide, by decide⟩

/-- C1 amended: every input of the documented legacy shape
`{id, event_type, timestamp, data: {lead_name, phone}}` (string values)
resolves to the `ChatGuru` (Primary) variant with every field defaulted,
because that variant is attempted first and accepts any object whose
recognized fields type-check; consequently `get_contact_name` returns
`""`, `get_phone_number` returns `none`, `has_media` is `false` and
`get_chat_id` returns `none`. -/
theorem c1_legacy_shape_resolves_to_primary (idv ev ts ln ph : String) :
    WebhookPayload.fromJson (Json.obj
      [("id", Json.str idv), ("event_type", Json.str ev),
       ("timestamp", Json.str ts),
       ("data", Json.obj [("lead_name", Json.str ln), ("phone", Json.str ph)])]) =
      some (WebhookPayload.ChatGuru cgDefault) ∧
    WebhookPayload.get_contact_name (WebhookPayload.ChatGuru cgDefault) = "" ∧
    WebhookPayload.get_phone_number (WebhookPayload.ChatGuru cgDefault) = none ∧
    WebhookPayload.has_media (WebhookPayload.ChatGuru cgDefault) = false ∧
    WebhookPayload.get_chat_id (WebhookPayload.ChatGuru cgDefault) = none := by
  refine ⟨rfl, rfl, rfl, rfl, rfl⟩

/-- C2 counterexample: a structurally valid JSON object on which
deserialization into `WebhookPayload` fails outright — `{"nome": 123}`
carries an ill-typed recognized field for the `ChatGuru` and `Generic`
variants and lacks the fields required by `EventType`, so no variant (not
even the fallback) accepts it. -/
theorem c2_counterexample :
    WebhookPayload.fromJson (Json.obj [("nome", Json.num 123)]) = none := rfl

/-- C2 amended: deserialization succeeds for every JSON object whose
entries type-check against the `ChatGuru` variant's fields and feed no
logical field twice — such inputs always resolve (to the `ChatGuru`
variant, all absent fields defaulted); totality over all structurally
valid JSON does not hold. -/
theorem c2_welltyped_objects_always_resolve
    (o : List (String × Json))
    (h1 : ∀ kv ∈ o, cgFieldCheck kv.1 kv.2 = true)
    (h2 : slotsNodup cgSlot o = true) :
    ∃ p, WebhookPayload.fromJson (Json.obj o) = some (WebhookPayload.ChatGuru p) := by
  have hall : (o.all fun kv => cgFieldCheck kv.1 kv.2) = true :=
    List.all_eq_true.mpr fun kv hkv => h1 kv hkv
  have hcg : ∃ p, cgFromObj o = some p := by
    unfold cgFromObj
    rw [hall, h2]
    exact ⟨_, rfl⟩
  obtain ⟨p, hp⟩ := hcg
  refine ⟨p, ?_⟩
  have hfj : ChatGuruPayload.fromJson (Json.obj o) = some p := hp
  simp [WebhookPayload.fromJson, hfj]

/-- C2 witness: the amended totality theorem applied to a small concrete
well-typed object. -/
theorem c2_witness :
    ∃ p, WebhookPayload.fromJson (Json.obj [("nome", Json.str "Ana")]) =
      some (WebhookPayload.ChatGuru p) :=
  c2_welltyped_objects_always_resolve [("nome", Json.str "Ana")]
    (by decide) (by decide)

/-- C3 confirmed: for both outbound calls, whenever an HTTP response is
received the call returns `Ok(())` — for every status code, 2xx or not —
and a `NetworkError` is returned exactly when the transport-level send
itself fails. -/
theorem c3_best_effort_error_policy :
    (∀ cfg cid ph tx st body,
      ( add_annotation' cfg cid ph tx (HttpOutcome.response st body)).result =
        Except.ok ()) ∧
    (∀ cfg cid ph tx e,
      ( add_annotation' cfg cid ph tx (HttpOutcome.failure e)).result =
        Except.error (ChatGuruError.NetworkError ("Failed to add annotation: " ++ e))) ∧
    (∀ cfg ph pid tx st body,
      (send_confirmation_message cfg ph pid tx (HttpOutcome.response st body)).result =
        Except.ok ()) ∧
    (∀ cfg ph pid tx e,
      (send_confirmation_message cfg ph pid tx (HttpOutcome.failure e)).result =
        Except.error (ChatGuruError.NetworkError ("Failed to send message: " ++ e))) := by
  refine ⟨?_, ?_, ?_, ?_⟩ <;> intros <;>
    simp only [add_annotation', send_confirmation_message] <;>
    split <;> first | rfl | (split <;> rfl)

/-- C4: the `ends_with`-based base-URL normalization fails its own goal on
an endpoint that already contains `/api/v1` but carries a trailing slash:
a bare host normalizes to exactly one `/api/v1` segment, but
`https://api.chatguru.app/api/v1/` receives a second one, contradicting
the claim (and the source comment above the construction). -/
theorem c4_trailing_slash_duplicates_api_v1 :
    countOccs "/api/v1".data (normalize_base_url "https://api.chatguru.app").data = 1 ∧
    normalize_base_url "https://api.chatguru.app/api/v1/" =
      "https://api.chatguru.app/api/v1/api/v1" ∧
    countOccs "/api/v1".data
      (normalize_base_url "https://api.chatguru.app/api/v1/").data = 2 := by
  refine ⟨by decide, by decide, by decide⟩

/-- C9 confirmed: the request URL built by `add_annotation` does not depend
on the `chat_id` argument — two calls agreeing on everything else but the
chat id build identical URLs (the chat id reaches only the log messages). -/
theorem c9_url_ignores_chat_id :
    ∀ cfg cid₁ cid₂ ph tx out,
      ( add_annotation' cfg cid₁ ph tx out).url =
        ( add_annotation' cfg cid₂ ph tx out).url :=
  fun _ _ _ _ _ _ => rfl

/-- C5 confirmed: each accessor returns the documented value or documented
default per matched variant — `"Contato"` for a missing legacy/generic
name, emptiness-guarded phone and message text on the current format, the
event `id` as chat id on the legacy format and no chat id on the generic
one. -/
theorem c5_accessor_documented_defaults :
    (∀ p : EventTypePayload,
      WebhookPayload.get_contact_name (WebhookPayload.EventType p) =
        p.data.lead_name.getD "Contato") ∧
    (∀ g : GenericPayload,
      WebhookPayload.get_contact_name (WebhookPayload.Generic g) =
        g.nome.getD "Contato") ∧
    (∀ c : ChatGuruPayload,
      WebhookPayload.get_phone_number (WebhookPayload.ChatGuru c) =
        if c.celular = "" then none else some c.celular) ∧
    (∀ c : ChatGuruPayload,
      WebhookPayload.get_message_text (WebhookPayload.ChatGuru c) =
        if c.texto_mensagem = "" then none else some c.texto_mensagem) ∧
    (∀ p : EventTypePayload,
      WebhookPayload.get_chat_id (WebhookPayload.EventType p) = some p.id) ∧
    (∀ g : GenericPayload,
      WebhookPayload.get_chat_id (WebhookPayload.Generic g) = none) :=
  ⟨fun _ => rfl, fun _ => rfl, fun _ => rfl, fun _ => rfl, fun _ => rfl, fun _ => rfl⟩

/-- Payload of the spec's push-to-talk normalization example. -/
def pttPayload : ChatGuruPayload :=
  { cgDefault with tipo_mensagem := some "ptt", url_arquivo := some "https://x/a.ogg" }

/-- Payload of the spec's unrecognized-tag normalization example. -/
def widgetPayload : ChatGuruPayload :=
  { cgDefault with tipo_mensagem := some "widget" }

/-- The kind-to-MIME table inlined in `normalize_media_fields`, restated
as an if-chain over the tag value. -/
theorem tipoTagTable (t : String) :
    (match t with
      | "image" => "image/jpeg"
      | "ptt" => "audio/ogg"
      | "audio" => "audio/ogg"
      | "video" => "video/mp4"
      | "document" => "application/pdf"
      | other => "application/" ++ other) =
    (if t = "image" then "image/jpeg"
     else if t = "ptt" then "audio/ogg"
     else if t = "audio" then "audio/ogg"
     else if t = "video" then "video/mp4"
     else if t = "document" then "application/pdf"
     else "application/" ++ t) := by
  split <;> simp_all

/-- C6 confirmed: with the canonical media type unset and a message-kind
tag present, `normalize_media_fields` derives the canonical type by the
documented kind-to-MIME table (unknown tags map to `application/` plus the
tag), and an unset canonical URL receives `url_arquivo` when that is set;
the spec's `ptt` and `widget` instances hold. -/
theorem c6_media_kind_to_mime :
    (∀ (p : ChatGuruPayload) (t : String), p.media_type = none →
      p.tipo_mensagem = some t →
      (ChatGuruPayload.normalize_media_fields p).media_type =
        some (if t = "image" then "image/jpeg"
              else if t = "ptt" then "audio/ogg"
              else if t = "audio" then "audio/ogg"
              else if t = "video" then "video/mp4"
              else if t = "document" then "application/pdf"
              else "application/" ++ t)) ∧
    (∀ (p : ChatGuruPayload) (u : String), p.media_url = none →
      p.url_arquivo = some u →
      (ChatGuruPayload.normalize_media_fields p).media_url = some u) ∧
    (ChatGuruPayload.normalize_media_fields pttPayload).media_type =
      some "audio/ogg" ∧
    (ChatGuruPayload.normalize_media_fields pttPayload).media_url =
      some "https://x/a.ogg" ∧
    (ChatGuruPayload.normalize_media_fields widgetPayload).media_type =
      some "application/widget" := by
  refine ⟨?_, ?_, rfl, rfl, rfl⟩
  · intro p t h1 h2
    cases hmu : p.media_url <;> cases hua : p.url_arquivo <;>
      simp [ChatGuruPayload.normalize_media_fields, h1, h2, hmu, hua, tipoTagTable]
  · intro p u h1 h2
    cases hmt : p.media_type <;> cases htm : p.tipo_mensagem <;>
      simp [ChatGuruPayload.normalize_media_fields, h1, h2, hmt, htm]

/-- C6 witness: the kind-to-MIME conjunct applied at the spec's concrete
push-to-talk payload. -/
theorem c6_witness :
    (ChatGuruPayload.normalize_media_fields pttPayload).media_type =
      some "audio/ogg" := by
  have h := c6_media_kind_to_mime.1 pttPayload "ptt" rfl rfl
  simpa using h

/-- C7 confirmed: `normalize_media_fields` is idempotent — a second
application changes nothing, on the whole payload — and it never overwrites
an already-populated canonical media URL or media type. -/
theorem c7_normalize_idempotent :
    ∀ p : ChatGuruPayload,
      ChatGuruPayload.normalize_media_fields (ChatGuruPayload.normalize_media_fields p) =
        ChatGuruPayload.normalize_media_fields p ∧
      (∀ u, p.media_url = some u →
        (ChatGuruPayload.normalize_media_fields p).media_url = some u) ∧
      (∀ t, p.media_type = some t →
        (ChatGuruPayload.normalize_media_fields p).media_type = some t) := by
  intro p
  refine ⟨?_, ?_, ?_⟩
  · cases hmu : p.media_url <;> cases hmt : p.media_type <;>
      cases htm : p.tipo_mensagem <;> cases hua : p.url_arquivo <;>
      simp [ChatGuruPayload.normalize_media_fields, hmu, hmt, htm, hua]
  · intro u hu
    cases hmt : p.media_type <;> cases htm : p.tipo_mensagem <;>
      simp [ChatGuruPayload.normalize_media_fields, hu, hmt, htm]
  · intro tt ht
    cases hmu : p.media_url <;> cases hua : p.url_arquivo <;>
      cases htm : p.tipo_mensagem <;>
      simp [ChatGuruPayload.normalize_media_fields, ht, hmu, hua, htm]

/-- Payload already carrying both canonical media fields. -/
def mediaFullPayload : ChatGuruPayload :=
  { cgDefault with media_url := some "https://m/x.png", media_type := some "image/png" }

/-- C7 witness: applied at a payload already carrying both canonical media
fields. -/
theorem c7_witness :
    (ChatGuruPayload.normalize_media_fields mediaFullPayload).media_url =
      some "https://m/x.png" :=
  (c7_normalize_idempotent mediaFullPayload).2.1 "https://m/x.png" rfl

/-- C10 confirmed: `has_media` holds exactly when `get_media_url` returns
a value; a current-format payload carrying only a media type or a
message-kind tag (so `get_media_type` returns a value) still reports no
media and no media URL. -/
theorem c10_has_media_iff_media_url :
    (∀ w : WebhookPayload, WebhookPayload.has_media w =
      (WebhookPayload.get_media_url w).isSome) ∧
    (∀ mt tp, WebhookPayload.has_media (WebhookPayload.ChatGuru
      { cgDefault with media_type := mt, tipo_mensagem := tp }) = false) ∧
    (∀ mt tp, WebhookPayload.get_media_url (WebhookPayload.ChatGuru
      { cgDefault with media_type := mt, tipo_mensagem := tp }) = none) ∧
    (∀ t, (WebhookPayload.get_media_type (WebhookPayload.ChatGuru
      { cgDefault with tipo_mensagem := some t })).isSome = true) := by
  refine ⟨?_, fun _ _ => rfl, fun _ _ => rfl, fun _ => rfl⟩
  intro w
  cases w with
  | ChatGuru p =>
      cases hu : p.media_url <;>
        simp [WebhookPayload.has_media, WebhookPayload.get_media_url, Option.or, hu]
  | EventType p => rfl
  | Generic p => rfl
